import Mathlib

/-!
Verification of the semantic-search-service retrieval core.

This file gives a shallow embedding, in Lean 4, of the parts of the
service that its specification makes claims about:

* `src/core/redis_cache.py` — the `QueryCache` over a Redis KV store
  (key derivation with MD5, get/set/delete, graceful degradation);
* `src/core/semantic_search.py` — `search`, `search_with_citations`,
  `check_exists`, `find_violations`, `refresh_project`;
* `src/core/doc_intelligence.py` — `check_exists` (the 0.7-threshold
  variant the spec describes);
* `src/core/components/search/basic.py` and
  `src/core/components/analysis/violations.py` — the component layer's
  not-indexed guards;
* `src/integrations/api.py` — the `GET /health` endpoint;
* `src/core/config.py` — `load_config`;
* `src/core/resources/llm_selector.py` — `should_use_complex_model`.

Python machine-level details are modelled as follows: `str` is `String`
(character-based slicing and length, as in Python), `bytes` are
`List Nat` with entries below 256, similarity scores (Python floats that
are only ever compared and passed through) are `ℚ`, exceptions are
`Except`/`Option` with the source's `try/except` blocks becoming the
corresponding `match`, and network/LLM effects become explicit value
parameters (the outcome the backend returned). `hashlib.md5` is
implemented from RFC 1321 so that key derivation is computable.
-/

set_option maxRecDepth 40000

namespace SemanticSearchService

/-! ## String helpers (Python `str` operations, on character lists) -/

/-- Whether the first list occurs at the head of the second. -/
def listIsPrefOf : List Char → List Char → Bool
  | [], _ => true
  | _ :: _, [] => false
  | a :: as, b :: bs => a == b && listIsPrefOf as bs

/-- Whether `needle` occurs contiguously inside `hay`. -/
def listHasSub (needle : List Char) : List Char → Bool
  | [] => needle.isEmpty
  | b :: bs => listIsPrefOf needle (b :: bs) || listHasSub needle bs

/-- Python's `needle in hay` on strings. -/
def hasSubstr (hay needle : String) : Bool := listHasSub needle.data hay.data

/-- Python's `len(s)` (counts characters, as Python does). -/
def pyLen (s : String) : Nat := s.data.length

/-- Python's `s[:n]` for `n ≥ 0` (slices characters, as Python does). -/
def pyTake (s : String) (n : Nat) : String := String.mk (s.data.take n)

/-- ASCII lower-casing of one character.  Python's `str.lower()` is
Unicode-aware, but every keyword and sentinel compared against in the
source is plain ASCII, for which the two agree. -/
def charLower (c : Char) : Char :=
  if 65 ≤ c.toNat ∧ c.toNat ≤ 90 then Char.ofNat (c.toNat + 32) else c

/-- Python's `s.lower()` (ASCII fragment). -/
def pyLower (s : String) : String := String.mk (s.data.map charLower)

/-- Characters Python's `str.strip()` removes. -/
def isPySpace (c : Char) : Bool :=
  c == ' ' || c == '\t' || c == '\n' || c == '\r' || c.toNat == 11 ||
    c.toNat == 12

/-- Python's `s.strip()`. -/
def pyStrip (s : String) : String :=
  String.mk (((s.data.dropWhile isPySpace).reverse.dropWhile
    isPySpace).reverse)

/-- Split a character list at newline characters (Python `s.split('\n')`:
`""` yields `[""]`, separators at the ends yield empty pieces). -/
def splitNl : List Char → List (List Char)
  | [] => [[]]
  | c :: rest =>
      let r := splitNl rest
      if c == '\n' then [] :: r
      else
        match r with
        | h :: t => (c :: h) :: t
        | [] => [[c]]

/-- Python's `s.split('\n')`. -/
def pySplitNl (s : String) : List String := (splitNl s.data).map String.mk

/-- Python's `s.startswith(p)`. -/
def pyStartsWith (s p : String) : Bool := listIsPrefOf p.data s.data

/-- Python's `s.endswith(p)`. -/
def pyEndsWith (s p : String) : Bool :=
  listIsPrefOf p.data.reverse s.data.reverse

/-! ## MD5 (RFC 1321), backing `hashlib.md5(...).hexdigest()`

`QueryCache._make_key` in `src/core/redis_cache.py` is
`hashlib.md5(query.encode()).hexdigest()`; the algorithm is implemented
here so that cache keys are concrete computable strings. -/

/-- 32-bit truncation. -/
def w32 (x : Nat) : Nat := x % 4294967296

/-- Bitwise complement within 32 bits (valid for `x < 2^32`). -/
def mnot (x : Nat) : Nat := 4294967295 - x

/-- 32-bit left rotation (valid for `x < 2^32`, `0 < s < 32`). -/
def rotl (x s : Nat) : Nat := w32 (x <<< s) ||| (x >>> (32 - s))

/-- MD5 per-round constants `K[i] = floor(2^32 * abs(sin(i+1)))`. -/
def md5K : List Nat :=
  [0xd76aa478, 0xe8c7b756, 0x242070db, 0xc1bdceee,
   0xf57c0faf, 0x4787c62a, 0xa8304613, 0xfd469501,
   0x698098d8, 0x8b44f7af, 0xffff5bb1, 0x895cd7be,
   0x6b901122, 0xfd987193, 0xa679438e, 0x49b40821,
   0xf61e2562, 0xc040b340, 0x265e5a51, 0xe9b6c7aa,
   0xd62f105d, 0x02441453, 0xd8a1e681, 0xe7d3fbc8,
   0x21e1cde6, 0xc33707d6, 0xf4d50d87, 0x455a14ed,
   0xa9e3e905, 0xfcefa3f8, 0x676f02d9, 0x8d2a4c8a,
   0xfffa3942, 0x8771f681, 0x6d9d6122, 0xfde5380c,
   0xa4beea44, 0x4bdecfa9, 0xf6bb4b60, 0xbebfbc70,
   0x289b7ec6, 0xeaa127fa, 0xd4ef3085, 0x04881d05,
   0xd9d4d039, 0xe6db99e5, 0x1fa27cf8, 0xc4ac5665,
   0xf4292244, 0x432aff97, 0xab9423a7, 0xfc93a039,
   0x655b59c3, 0x8f0ccc92, 0xffeff47d, 0x85845dd1,
   0x6fa87e4f, 0xfe2ce6e0, 0xa3014314, 0x4e0811a1,
   0xf7537e82, 0xbd3af235, 0x2ad7d2bb, 0xeb86d391]

/-- MD5 per-round shift amounts. -/
def md5S : List Nat :=
  [7, 12, 17, 22, 7, 12, 17, 22, 7, 12, 17, 22, 7, 12, 17, 22,
   5, 9, 14, 20, 5, 9, 14, 20, 5, 9, 14, 20, 5, 9, 14, 20,
   4, 11, 16, 23, 4, 11, 16, 23, 4, 11, 16, 23, 4, 11, 16, 23,
   6, 10, 15, 21, 6, 10, 15, 21, 6, 10, 15, 21, 6, 10, 15, 21]

/-- Split a 64-byte chunk into 16 little-endian 32-bit words. -/
def leWords : List Nat → List Nat
  | b0 :: b1 :: b2 :: b3 :: rest =>
      (b0 + 256 * b1 + 65536 * b2 + 16777216 * b3) :: leWords rest
  | _ => []

/-- One MD5 round operation on state `(a, b, c, d)` at round index `i`. -/
def md5Round (m : List Nat) (st : Nat × Nat × Nat × Nat) (i : Nat) :
    Nat × Nat × Nat × Nat :=
  let (a, b, c, d) := st
  let fg : Nat × Nat :=
    if i < 16 then ((b &&& c) ||| (mnot b &&& d), i)
    else if i < 32 then ((d &&& b) ||| (mnot d &&& c), (5 * i + 1) % 16)
    else if i < 48 then (b ^^^ c ^^^ d, (3 * i + 5) % 16)
    else (c ^^^ (b ||| mnot d), (7 * i) % 16)
  let f := w32 (fg.1 + a + md5K.getD i 0 + m.getD fg.2 0)
  (d, w32 (b + rotl f (md5S.getD i 0)), b, c)

/-- Process one 64-byte chunk, updating the four-word MD5 state. -/
def md5Compress (st : Nat × Nat × Nat × Nat) (chunk : List Nat) :
    Nat × Nat × Nat × Nat :=
  let m := leWords chunk
  let r := (List.range 64).foldl (md5Round m) st
  (w32 (st.1 + r.1), w32 (st.2.1 + r.2.1), w32 (st.2.2.1 + r.2.2.1),
   w32 (st.2.2.2 + r.2.2.2))

/-- Fold `md5Compress` over successive 64-byte chunks; the fuel bounds
the number of chunks (structural recursion keeps this kernel-reducible). -/
def md5ChunksF : Nat → Nat × Nat × Nat × Nat → List Nat →
    Nat × Nat × Nat × Nat
  | 0, st, _ => st
  | _ + 1, st, [] => st
  | fuel + 1, st, b :: rest =>
      md5ChunksF fuel (md5Compress st ((b :: rest).take 64))
        ((b :: rest).drop 64)

/-- Fold `md5Compress` over all 64-byte chunks of the padded message. -/
def md5Chunks (st : Nat × Nat × Nat × Nat) (l : List Nat) :
    Nat × Nat × Nat × Nat :=
  md5ChunksF l.length st l

/-- RFC 1321 padding: `0x80`, zeros to 56 mod 64, then the bit length as
eight little-endian bytes. -/
def md5Pad (msg : List Nat) : List Nat :=
  let L := msg.length
  let zeros := (119 - (L % 64)) % 64
  let bitLen := (8 * L) % 18446744073709551616
  msg ++ [0x80] ++ List.replicate zeros 0 ++
    [bitLen % 256, (bitLen >>> 8) % 256, (bitLen >>> 16) % 256,
     (bitLen >>> 24) % 256, (bitLen >>> 32) % 256, (bitLen >>> 40) % 256,
     (bitLen >>> 48) % 256, (bitLen >>> 56) % 256]

/-- Hex digit character for `n < 16` (lowercase). -/
def hexDigit (n : Nat) : Char :=
  if n < 10 then Char.ofNat (48 + n) else Char.ofNat (87 + n)

/-- Two lowercase hex digits of a byte. -/
def byteHex (b : Nat) : List Char := [hexDigit (b / 16), hexDigit (b % 16)]

/-- Little-endian hex rendering of a 32-bit word. -/
def wordHexLE (w : Nat) : List Char :=
  byteHex (w % 256) ++ byteHex ((w >>> 8) % 256) ++
    byteHex ((w >>> 16) % 256) ++ byteHex ((w >>> 24) % 256)

/-- MD5 digest of a byte sequence, as a lowercase hex string. -/
def md5HexBytes (msg : List Nat) : String :=
  let st := md5Chunks (0x67452301, 0xefcdab89, 0x98badcfe, 0x10325476)
    (md5Pad msg)
  String.mk (wordHexLE st.1 ++ wordHexLE st.2.1 ++ wordHexLE st.2.2.1 ++
    wordHexLE st.2.2.2)

/-- UTF-8 encoding of one character (what `str.encode()` emits per code
point). -/
def utf8Bytes (c : Char) : List Nat :=
  let n := c.toNat
  if n < 128 then [n]
  else if n < 2048 then [192 + n / 64, 128 + n % 64]
  else if n < 65536 then [224 + n / 4096, 128 + (n / 64) % 64, 128 + n % 64]
  else [240 + n / 262144, 128 + (n / 4096) % 64, 128 + (n / 64) % 64,
        128 + n % 64]

/-- UTF-8 bytes of a string (Python's `s.encode()`). -/
def strBytes (s : String) : List Nat := (s.data.map utf8Bytes).flatten

/-- `hashlib.md5(s.encode()).hexdigest()`.  Checked against `hashlib`:
for example `md5Hex "" = "d41d8cd98f00b204e9800998ecf8427e"` and
`md5Hex "hello world" = "5eb63bbbe01eeed093cb22bb8f5acdc3"`. -/
def md5Hex (s : String) : String := md5HexBytes (strBytes s)

/-! ## JSON values, `json.dumps` and `json.loads`

The `QueryCache` serialises non-string values with `json.dumps` and
deserialises with `json.loads`.  JSON values are modelled by `Json`;
numbers cover the integer grammar (the cache claims in scope never
produce or store JSON floats, which this model rejects where Python
would parse them). -/

inductive Json where
  | null : Json
  | bool (b : Bool) : Json
  | num (n : Int) : Json
  | str (s : String) : Json
  | arr (xs : List Json) : Json
  | obj (kvs : List (String × Json)) : Json

/-- Four lowercase hex digits (for `\uXXXX` escapes). -/
def hex4 (n : Nat) : List Char :=
  [hexDigit (n / 4096 % 16), hexDigit (n / 256 % 16), hexDigit (n / 16 % 16),
   hexDigit (n % 16)]

/-- `json.dumps` escaping of one character (`ensure_ascii=True` default:
everything outside `0x20`–`0x7e` becomes `\uXXXX`, with surrogate pairs
above the BMP). -/
def jsonEscChar (c : Char) : List Char :=
  if c == '"' then ['\\', '"']
  else if c == '\\' then ['\\', '\\']
  else if c == '\n' then ['\\', 'n']
  else if c == '\r' then ['\\', 'r']
  else if c == '\t' then ['\\', 't']
  else if c.toNat == 8 then ['\\', 'b']
  else if c.toNat == 12 then ['\\', 'f']
  else if c.toNat < 32 || 126 < c.toNat then
    if c.toNat < 65536 then '\\' :: 'u' :: hex4 c.toNat
    else
      let n := c.toNat - 65536
      ('\\' :: 'u' :: hex4 (55296 + n / 1024)) ++
        ('\\' :: 'u' :: hex4 (56320 + n % 1024))
  else [c]

/-- `json.dumps` rendering of a string literal. -/
def jsonQuote (s : String) : String :=
  String.mk ('"' :: (s.data.map jsonEscChar).flatten ++ ['"'])

mutual

/-- `json.dumps(v)` with the default separators `", "` and `": "`. -/
def jsonDumps : Json → String
  | .null => "null"
  | .bool true => "true"
  | .bool false => "false"
  | .num n => toString n
  | .str s => jsonQuote s
  | .arr xs => "[" ++ jsonDumpsList xs ++ "]"
  | .obj kvs => "\x7b" ++ jsonDumpsMembers kvs ++ "\x7d"

/-- Comma-joined array elements. -/
def jsonDumpsList : List Json → String
  | [] => ""
  | [x] => jsonDumps x
  | x :: y :: rest => jsonDumps x ++ ", " ++ jsonDumpsList (y :: rest)

/-- Comma-joined object members. -/
def jsonDumpsMembers : List (String × Json) → String
  | [] => ""
  | [(k, v)] => jsonQuote k ++ ": " ++ jsonDumps v
  | (k, v) :: m :: rest =>
      jsonQuote k ++ ": " ++ jsonDumps v ++ ", " ++ jsonDumpsMembers (m :: rest)

end

/-- JSON whitespace (`json.loads` skips exactly these). -/
def isJsonWs (c : Char) : Bool :=
  c == ' ' || c == '\t' || c == '\n' || c == '\r'

/-- Drop leading JSON whitespace. -/
def skipWs (cs : List Char) : List Char := cs.dropWhile isJsonWs

/-- Value of one hex digit character. -/
def hexVal (c : Char) : Option Nat :=
  if 48 ≤ c.toNat ∧ c.toNat ≤ 57 then some (c.toNat - 48)
  else if 97 ≤ c.toNat ∧ c.toNat ≤ 102 then some (c.toNat - 87)
  else if 65 ≤ c.toNat ∧ c.toNat ≤ 70 then some (c.toNat - 55)
  else none

/-- Whether a character is an ASCII digit. -/
def isDigitCh (c : Char) : Bool := 48 ≤ c.toNat && c.toNat ≤ 57

/-- Parse the body of a JSON string literal, after the opening quote:
returns the decoded characters and the input after the closing quote.
Fuel-indexed so the kernel can evaluate it.  Lone surrogates (which
Python keeps as surrogate code units) are outside this model; the cache
never stores them. -/
def parseJStrF : Nat → List Char → Option (List Char × List Char)
  | 0, _ => none
  | _ + 1, [] => none
  | fuel + 1, c :: rest =>
    if c == '"' then some ([], rest)
    else if c == '\\' then
      match rest with
      | [] => none
      | e :: rest2 =>
        if e == '"' || e == '\\' || e == '/' then
          (parseJStrF fuel rest2).map (fun p => (e :: p.1, p.2))
        else if e == 'b' then
          (parseJStrF fuel rest2).map (fun p => (Char.ofNat 8 :: p.1, p.2))
        else if e == 'f' then
          (parseJStrF fuel rest2).map (fun p => (Char.ofNat 12 :: p.1, p.2))
        else if e == 'n' then
          (parseJStrF fuel rest2).map (fun p => ('\n' :: p.1, p.2))
        else if e == 'r' then
          (parseJStrF fuel rest2).map (fun p => ('\r' :: p.1, p.2))
        else if e == 't' then
          (parseJStrF fuel rest2).map (fun p => ('\t' :: p.1, p.2))
        else if e == 'u' then
          match rest2 with
          | h1 :: h2 :: h3 :: h4 :: rest3 =>
            match hexVal h1, hexVal h2, hexVal h3, hexVal h4 with
            | some a, some b, some cc, some d =>
              let n := 4096 * a + 256 * b + 16 * cc + d
              if 55296 ≤ n ∧ n < 56320 then
                match rest3 with
                | '\\' :: 'u' :: g1 :: g2 :: g3 :: g4 :: rest4 =>
                  match hexVal g1, hexVal g2, hexVal g3, hexVal g4 with
                  | some a2, some b2, some c2, some d2 =>
                    let m := 4096 * a2 + 256 * b2 + 16 * c2 + d2
                    if 56320 ≤ m ∧ m < 57344 then
                      (parseJStrF fuel rest4).map (fun p =>
                        (Char.ofNat (65536 + 1024 * (n - 55296) + (m - 56320))
                          :: p.1, p.2))
                    else none
                  | _, _, _, _ => none
                | _ => none
              else if 56320 ≤ n ∧ n < 57344 then none
              else
                (parseJStrF fuel rest3).map (fun p =>
                  (Char.ofNat n :: p.1, p.2))
            | _, _, _, _ => none
          | _ => none
        else none
    else if c.toNat < 32 then none
    else (parseJStrF fuel rest).map (fun p => (c :: p.1, p.2))

/-- Numeric value of a digit run. -/
def digitsVal (ds : List Char) : Nat :=
  ds.foldl (fun a c => 10 * a + (c.toNat - 48)) 0

/-- Parse a JSON integer (grammar `-?(0|[1-9][0-9]*)`).  A following
`.`, `e` or `E` would start a JSON float, which this model does not
cover; parsing fails there. -/
def parseJNum (cs : List Char) : Option (Json × List Char) :=
  let (neg, cs1) : Bool × List Char :=
    match cs with
    | '-' :: t => (true, t)
    | _ => (false, cs)
  match cs1 with
  | [] => none
  | c :: rest =>
    if ¬ (isDigitCh c = true) then none
    else
      let (digits, rest2) : List Char × List Char :=
        if c == '0' then ([c], rest)
        else ((c :: rest).takeWhile isDigitCh, (c :: rest).dropWhile isDigitCh)
      match rest2 with
      | d :: _ =>
        if isDigitCh d || d == '.' || d == 'e' || d == 'E' then none
        else
          some (.num (if neg then -(digitsVal digits : Int)
            else (digitsVal digits : Int)), rest2)
      | [] =>
        some (.num (if neg then -(digitsVal digits : Int)
          else (digitsVal digits : Int)), [])

mutual

/-- Parse one JSON value (fuel-indexed recursive-descent, mirroring the
grammar `json.loads` accepts, minus floats). -/
def parseJValF : Nat → List Char → Option (Json × List Char)
  | 0, _ => none
  | fuel + 1, cs =>
    match skipWs cs with
    | [] => none
    | c :: rest =>
      if c == '"' then
        (parseJStrF fuel rest).map (fun p => (.str (String.mk p.1), p.2))
      else if c == '[' then
        match skipWs rest with
        | ']' :: r => some (.arr [], r)
        | cs2 => (parseJArrF fuel cs2).map (fun p => (.arr p.1, p.2))
      else if c == Char.ofNat 123 then
        match skipWs rest with
        | c2 :: r =>
          if c2 == Char.ofNat 125 then some (.obj [], r)
          else (parseJObjF fuel (c2 :: r)).map (fun p => (.obj p.1, p.2))
        | [] => none
      else if listIsPrefOf ['t', 'r', 'u', 'e'] (c :: rest) then
        some (.bool true, (c :: rest).drop 4)
      else if listIsPrefOf ['f', 'a', 'l', 's', 'e'] (c :: rest) then
        some (.bool false, (c :: rest).drop 5)
      else if listIsPrefOf ['n', 'u', 'l', 'l'] (c :: rest) then
        some (.null, (c :: rest).drop 4)
      else if c == '-' || isDigitCh c then parseJNum (c :: rest)
      else none

/-- Parse `value (',' value)* ']'` — the non-empty tail of an array. -/
def parseJArrF : Nat → List Char → Option (List Json × List Char)
  | 0, _ => none
  | fuel + 1, cs => do
    let (v, r1) ← parseJValF fuel cs
    match skipWs r1 with
    | ',' :: r2 =>
      let (vs, r3) ← parseJArrF fuel r2
      some (v :: vs, r3)
    | ']' :: r2 => some ([v], r2)
    | _ => none

/-- Parse `string ':' value (',' member)* '}'` — the non-empty tail of
an object. -/
def parseJObjF : Nat → List Char → Option (List (String × Json) × List Char)
  | 0, _ => none
  | fuel + 1, cs =>
    match skipWs cs with
    | '"' :: r0 => do
      let (kcs, r1) ← parseJStrF fuel r0
      match skipWs r1 with
      | ':' :: r2 => do
        let (v, r3) ← parseJValF fuel r2
        match skipWs r3 with
        | ',' :: r4 =>
          let (kvs, r5) ← parseJObjF fuel r4
          some ((String.mk kcs, v) :: kvs, r5)
        | c :: r4 =>
          if c == Char.ofNat 125 then some ([(String.mk kcs, v)], r4)
          else none
        | [] => none
      | _ => none
    | _ => none

end

/-- `json.loads(s)`: `none` models the `json.JSONDecodeError` Python
raises on input that is not a single JSON document. -/
def jsonLoads (s : String) : Option Json :=
  match parseJValF (s.data.length + 1) s.data with
  | some (v, rest) => if (skipWs rest).isEmpty then some v else none
  | none => none

/-! ## `src/core/redis_cache.py` — the query cache

The backing `RedisKVStore` keeps, per `(collection, key)` pair, the
value passed to `put` (its internal JSON encode/decode round-trips the
strings the `QueryCache` hands it).  The `QueryCache` only ever `put`s
strings — `set` passes `result` through `json.dumps` first unless it
already is a string — so the backend is an association list from
`(collection, key)` to the stored string, most recent entry first. -/

abbrev Backend : Type := List ((String × String) × String)

/-- Backend lookup (`RedisKVStore.get(key, collection)`), `none` when
absent (Python `None`). -/
def kvLookup (b : Backend) (collection key : String) : Option String :=
  match b with
  | [] => none
  | ((c, k), v) :: t =>
      if c = collection ∧ k = key then some v else kvLookup t collection key

/-- Backend insert/overwrite (`RedisKVStore.put(key, val, collection)`). -/
def kvInsert (b : Backend) (collection key v : String) : Backend :=
  ((collection, key), v) :: b

/-- Backend delete (`RedisKVStore.delete(key, collection)`); returns
whether the key existed, and the remaining entries. -/
def kvRemove (b : Backend) (collection key : String) : Bool × Backend :=
  ((kvLookup b collection key).isSome,
   b.filter (fun e => ¬ (e.1 = (collection, key))))

/-- `get_redis_store()`: builds the store and probes the connection with
a dummy `get`; any exception degrades to `None`. -/
def getRedisStore (conn : Except String Backend) : Option Backend :=
  match conn with
  | .ok b => some b
  | .error _ => none

/-- `QueryCache._make_key(query)`:
`hashlib.md5(query.encode()).hexdigest()` — an MD5 over the `query`
argument alone. -/
def makeKey (query : String) : String := md5Hex query

/-- `QueryCache.get(query, collection)`.  The cache is `enabled` exactly
when the store is present (`some`); a disabled cache answers `None`
immediately.  Python returns `None` both for a miss and for a stored
null, and swallows every exception (modelled by the `Json.null`
branches), so the result is a single `Json` in which `Json.null` is
Python's `None`. -/
def qcGet (store : Option Backend) (query collection : String) : Json :=
  match store with
  | none => Json.null
  | some b =>
    match kvLookup b collection (makeKey query) with
    | none => Json.null
    | some r =>
      if r = "" then Json.null
      else
        match jsonLoads r with
        | none => Json.null
        | some v => v

/-- `QueryCache.set(query, collection, result)`: serialises non-string
results with `json.dumps`, stores under `_make_key(query)` in the given
collection, and reports success; a disabled cache reports `False` and
changes nothing. -/
def qcSet (store : Option Backend) (query collection : String) (v : Json) :
    Bool × Option Backend :=
  match store with
  | none => (false, none)
  | some b =>
    let payload : String :=
      match v with
      | .str s => s
      | other => jsonDumps other
    (true, some (kvInsert b collection (makeKey query) payload))

/-- `QueryCache.delete(query, collection)`. -/
def qcDelete (store : Option Backend) (query collection : String) :
    Bool × Option Backend :=
  match store with
  | none => (false, none)
  | some b =>
    let r := kvRemove b collection (makeKey query)
    (r.1, some r.2)

/-! ## `src/core/semantic_search.py` — search, citations, existence,
violations, refresh -/

/-- The string `search` hands to the query cache as its "query":
`cache_key = f"{query}:{limit}"`. -/
def searchCacheKeyArg (query : String) (limit : Nat) : String :=
  query ++ ":" ++ toString limit

/-- `search(query, project, limit)`: cache-first; on a hit the cached
value is returned as-is, on a miss the query-engine synthesis
(`engineResult`, the value of `str(...query(query))`) is cached under
`f"{query}:{limit}"` in collection `project` and returned.  The result
is the Python return value (`Json.str` for the synthesis path). -/
def search (store : Option Backend) (query project : String) (limit : Nat)
    (engineResult : String) : Json × Option Backend :=
  match qcGet store (searchCacheKeyArg query limit) project with
  | Json.null =>
      let r := qcSet store (searchCacheKeyArg query limit) project
        (Json.str engineResult)
      (Json.str engineResult, r.2)
  | cached => (cached, store)

/-- A node as the retriever returns it: source-file metadata, similarity
score, and chunk text. -/
structure CNode where
  file : String
  score : ℚ
  text : String

/-- One entry of the `citations` list built by `search_with_citations`. -/
structure Citation where
  citation_number : Nat
  file : String
  score : ℚ
  text_preview : String

/-- The preview construction
`node.text[:200] + "..." if len(node.text) > 200 else node.text`. -/
def previewOf (t : String) : String :=
  if 200 < pyLen t then pyTake t 200 ++ "..." else t

/-- The loop `for i, node in enumerate(response.source_nodes, 1)`:
citation numbers count from `start`. -/
def citationsFrom (start : Nat) : List CNode → List Citation
  | [] => []
  | n :: ns =>
      { citation_number := start, file := n.file, score := n.score,
        text_preview := previewOf n.text } :: citationsFrom (start + 1) ns

/-- The successful payload of `search_with_citations`. -/
structure CitationsResult where
  answer : String
  citations : List Citation
  query : String
  project : String

/-- `search_with_citations(query, project, limit)`: not-indexed guard,
then the citation list over the response's source nodes.  `answer` is
`str(response)` and `nodes` the retrieved `source_nodes`, both supplied
by the query engine. -/
def searchWithCitations (indexed : Bool) (query project answer : String)
    (nodes : List CNode) : Except String CitationsResult :=
  if indexed = false then
    .error ("Project '" ++ project ++ "' not indexed")
  else
    .ok { answer := answer, citations := citationsFrom 1 nodes,
          query := query, project := project }

/-- Return shape of `check_exists` in `semantic_search.py` (fields that
are absent in a branch are `none`). -/
structure SemExistsResult where
  exists_ : Bool
  confidence : Option ℚ
  file : Option String
  snippet : Option String
  message : Option String
  error : Option String

/-- `semantic_search.check_exists(component, project)`: top-3 retrieval;
any retrieved node at all makes `exists` true, with the best node's raw
score as `confidence` and a 200-character snippet. -/
def semCheckExists (component project : String) (indexed : Bool)
    (nodes : List CNode) : SemExistsResult :=
  if indexed = false then
    { exists_ := false, confidence := none, file := none, snippet := none,
      message := none, error := some "Project not indexed" }
  else
    match nodes with
    | n :: _ =>
        { exists_ := true, confidence := some n.score, file := some n.file,
          snippet := some (pyTake n.text 200), message := none, error := none }
    | [] =>
        { exists_ := false, confidence := none, file := none, snippet := none,
          message := some ("No " ++ component ++ " found in " ++ project),
          error := none }

/-- `semantic_search.find_violations(project)`: the not-indexed guard
returns `["Project not indexed"]`; otherwise the LLM response text
(`resp`, the value of `str(query_engine.query(...))`) is parsed into at
most ten stripped lines longer than ten characters, with the
"no violations"/"no issues" sentinels short-circuiting. -/
def semFindViolations (indexed : Bool) (resp : String) : List String :=
  if indexed = false then ["Project not indexed"]
  else
    if hasSubstr (pyLower resp) "no violations" ||
        hasSubstr (pyLower resp) "no issues" then
      ["✅ No major violations detected"]
    else
      let violations := ((pySplitNl resp).map pyStrip).filter
        (fun v => v ≠ "" ∧ 10 < pyLen v)
      if violations = [] then ["✅ No specific violations identified"]
      else violations.take 10

/-- A document as `refresh_project` loads it (with `filename_as_id`):
a stable id plus a content hash standing for the document content. -/
structure RefDoc where
  id : String
  hash : String
  deriving DecidableEq

/-- The stored node set of a collection, keyed by document id. -/
abbrev Store : Type := String → Option String

/-- Upsert of one document into the stored node set. -/
def storePut (st : Store) (d : RefDoc) : Store :=
  fun k => if k = d.id then some d.hash else st k

/-- Modelled from the spec: LlamaIndex's `index.refresh_ref_docs(docs)`
(library code, not under `src/`) — "for each input document, compare
stable id + content hash against the stored node set; insert new,
update changed, leave identical untouched", returning one boolean per
input document (`True` when the document was inserted or updated). -/
def refreshRefDocs (st : Store) : List RefDoc → List Bool × Store
  | [] => ([], st)
  | d :: ds =>
      let flag :=
        match st d.id with
        | none => true
        | some h => decide (h ≠ d.hash)
      let st' := if flag then storePut st d else st
      let r := refreshRefDocs st' ds
      (flag :: r.1, r.2)

/-- Python's `sum(...)` over a boolean list. -/
def countTrue (l : List Bool) : Nat := l.count true

/-- Return shape of `refresh_project`. -/
structure RefreshResult where
  refreshed : Nat
  total : Nat
  unchanged : Nat
  collection : String

/-- `refresh_project(name, path)`: not-indexed guard, reader errors
surface as an error value, then `refresh_ref_docs` drives the counts
`{refreshed, total, unchanged}`. -/
def refreshProject (name : String) (indexed : Bool) (st : Store)
    (docs : Except String (List RefDoc)) :
    Except String (RefreshResult × Store) :=
  if indexed = false then
    .error ("Project '" ++ name ++ "' not indexed. Run index first.")
  else
    match docs with
    | .error e => .error ("Failed to load documents: " ++ e)
    | .ok ds =>
        let r := refreshRefDocs st ds
        .ok ({ refreshed := countTrue r.1, total := ds.length,
               unchanged := ds.length - countTrue r.1, collection := name },
             r.2)

/-! ## `src/core/doc_intelligence.py` — `check_exists`

This is the existence check the specification's §4.7 text describes
(top-1 retrieval, the 0.7 threshold, the 500-character context); the
same logic appears verbatim in
`src/core/components/documentation/management.py`. -/

/-- A retrieved node: similarity score and text. -/
structure RNode where
  score : ℚ
  text : String

/-- Return shape of `doc_intelligence.check_exists` (fields absent in a
branch are `none`). -/
structure DocExistsResult where
  exists_ : Bool
  confidence : Option ℚ
  context : Option String
  framework : Option String
  message : Option String
  error : Option String

/-- `check_exists(component, framework)`: guard on the `docs_<framework>`
collection; then a top-1 retrieval (`retrieved` is its outcome — an
exception, or the node list, at most one node long since
`similarity_top_k=1`).  The positive branch requires
`nodes and nodes[0].score > 0.7` — a strict comparison — and only then
returns `confidence` (the raw score) and `context`
(`nodes[0].text[:500]`). -/
def docCheckExists (component framework : String) (collectionExists : Bool)
    (retrieved : Except String (List RNode)) : DocExistsResult :=
  if collectionExists = false then
    { exists_ := false, confidence := none, context := none,
      framework := none, message := none,
      error := some ("Framework '" ++ framework ++ "' not indexed") }
  else
    match retrieved with
    | .error e =>
        { exists_ := false, confidence := none, context := none,
          framework := none, message := none, error := some e }
    | .ok nodes =>
        match nodes with
        | n :: _ =>
            if (7 : ℚ) / 10 < n.score then
              { exists_ := true, confidence := some n.score,
                context := some (pyTake n.text 500),
                framework := some framework, message := none, error := none }
            else
              { exists_ := false, confidence := none, context := none,
                framework := some framework,
                message := some ("Component '" ++ component ++
                  "' not found in " ++ framework ++ " docs"),
                error := none }
        | [] =>
            { exists_ := false, confidence := none, context := none,
              framework := some framework,
              message := some ("Component '" ++ component ++
                "' not found in " ++ framework ++ " docs"),
              error := none }

/-! ## Component layer: `src/core/components/search/basic.py` and
`src/core/components/analysis/violations.py` -/

/-- `BasicSearchComponent.search(query, project, limit)`: the
not-indexed guard produces the error string; otherwise the shared
intelligence search runs (`inner` is its outcome) with exceptions
rendered as `"Search error: ..."`. -/
def basicSearch (projectExists : Bool) (project : String)
    (inner : Except String String) : String :=
  if projectExists = false then
    "Error: Project '" ++ project ++ "' not indexed"
  else
    match inner with
    | .ok s => s
    | .error e => "Search error: " ++ e

/-- `ViolationsAnalysisComponent.find_violations(project)`: the
not-indexed guard returns `["Project '<project>' not indexed"]`;
otherwise the four LLM-driven violation queries and the optional
summary accumulate `analysis` (supplied, being LLM output) and the
result is capped at six items. -/
def compFindViolations (projectExists : Bool) (project : String)
    (analysis : List String) : List String :=
  if projectExists = false then
    ["Project '" ++ project ++ "' not indexed"]
  else analysis.take 6

/-! ## `src/integrations/api.py` — `GET /health` -/

/-- The JSON body the `/health` route returns. -/
structure HealthResponse where
  status : String
  service : String
  timestamp : String
  qdrant : String
  collections : Nat

/-- The `health()` route handler: `check` is the outcome of
`get_qdrant_client().get_collections()` (its collection count on
success, the exception text on failure).  The `status` field is the
literal `"healthy"` in the single `return`, on both paths; only the
`components.qdrant` string and the count reflect the probe. -/
def healthEndpoint (check : Except String Nat) : HealthResponse :=
  match check with
  | .ok n =>
      { status := "healthy", service := "semantic-search-service",
        timestamp := "2025-01-09T00:00:00Z", qdrant := "connected",
        collections := n }
  | .error e =>
      { status := "healthy", service := "semantic-search-service",
        timestamp := "2025-01-09T00:00:00Z", qdrant := "error: " ++ e,
        collections := 0 }

/-! ## `src/core/config.py` — `load_config`

Configuration values are modelled as the raw strings the source reads;
the `int(...)`/`float(...)` conversions it applies to some fallback
entries do not affect which source a value comes from. -/

/-- The test `value.startswith("${") and value.endswith("}")`. -/
def isEnvPlaceholder (v : String) : Bool :=
  pyStartsWith v "$\x7b" && pyEndsWith v "\x7d"

/-- The extraction `env_var = value[2:-1]`. -/
def envVarOf (v : String) : String := String.mk ((v.data.drop 2).dropLast)

/-- `os.getenv(name, default)`. -/
def getenvD (env : String → Option String) (name default : String) : String :=
  (env name).getD default

/-- The per-value substitution applied to a YAML entry:
`config[key] = os.getenv(env_var, value)` when the value is a
`"${...}"` placeholder, the value itself otherwise. -/
def substEnv (env : String → Option String) (v : String) : String :=
  if isEnvPlaceholder v then getenvD env (envVarOf v) v else v

/-- The environment-variable fallback dict built when `config.yaml` is
absent. -/
def fallbackConfig (env : String → Option String) : List (String × String) :=
  [("llm_provider", getenvD env "LLM_PROVIDER" "openai"),
   ("embed_provider", getenvD env "EMBED_PROVIDER" "openai"),
   ("ollama_model", getenvD env "OLLAMA_MODEL" "llama3.1:latest"),
   ("openai_model", getenvD env "OPENAI_MODEL" "gpt-4"),
   ("openai_embed_model",
    getenvD env "OPENAI_EMBED_MODEL" "text-embedding-3-small"),
   ("huggingface_embed_model",
    getenvD env "HUGGINGFACE_EMBED_MODEL" "BAAI/bge-base-en-v1.5"),
   ("ollama_base_url", getenvD env "OLLAMA_BASE_URL" "http://localhost:11434"),
   ("ollama_request_timeout", getenvD env "OLLAMA_REQUEST_TIMEOUT" "120.0"),
   ("ollama_context_window", getenvD env "OLLAMA_CONTEXT_WINDOW" "8000"),
   ("num_workers", getenvD env "NUM_WORKERS" "4"),
   ("chunk_size", getenvD env "CHUNK_SIZE" "512"),
   ("chunk_overlap", getenvD env "CHUNK_OVERLAP" "50"),
   ("qdrant_url", getenvD env "QDRANT_URL" "http://localhost:6333"),
   ("collection_prefix",
    getenvD env "COLLECTION_PREFIX" "ai_intelligence_")]

/-- `load_config()`: when `config.yaml` exists its entries are loaded
and only `"${VAR}"`-shaped string values are replaced from the
environment; when it does not, the whole configuration comes from the
environment with defaults.  `yamlFile` is the parsed YAML as key/value
pairs (`none` when the file is absent), `env` the process
environment. -/
def loadConfig (yamlFile : Option (List (String × String)))
    (env : String → Option String) : List (String × String) :=
  match yamlFile with
  | some cfg => cfg.map (fun kv => (kv.1, substEnv env kv.2))
  | none => fallbackConfig env

/-! ## `src/core/resources/llm_selector.py` — `should_use_complex_model` -/

/-- The `complex_keywords` list. -/
def complexKeywords : List String :=
  ["analyze", "reasoning", "planning", "workflow", "business logic",
   "architecture", "design patterns", "violations", "entity extraction",
   "relationships", "graph", "property graph", "code analysis"]

/-- The `simple_keywords` list. -/
def simpleKeywords : List String :=
  ["search", "find", "get", "list", "health", "status", "exists",
   "simple", "basic", "quick", "fast", "documentation",
   "function signatures"]

/-- `should_use_complex_model(task_description)`: lower-case the task,
check the simple keywords first (so "fast" wins any conflict), then the
complex keywords, defaulting to `"fast"`. -/
def shouldUseComplexModel (taskDescription : String) : String :=
  let taskLower := pyLower taskDescription
  if simpleKeywords.any (fun kw => hasSubstr taskLower kw) then "fast"
  else if complexKeywords.any (fun kw => hasSubstr taskLower kw) then
    "complex"
  else "fast"

/-! ## Concrete inputs used by witnesses and counterexamples -/

/-- A process environment that sets the chunk-size variable (in both
spellings) and nothing else. -/
def env1 : String → Option String := fun k =>
  if k = "CHUNK_SIZE" ∨ k = "chunk_size" then some "1024" else none

/-- A stored node set holding one document `a.py` with content hash
`h1`. -/
def demoStore : Store := fun k => if k = "a.py" then some "h1" else none

/-- A refresh input: `a.py` unchanged, `b.md` new. -/
def demoDocs : List RefDoc := [⟨"a.py", "h1"⟩, ⟨"b.md", "h2"⟩]

/-! ## Helper lemmas -/

/-- `search_with_citations` produces exactly one citation per source
node. -/
theorem citationsFrom_length (k : Nat) (nodes : List CNode) :
    (citationsFrom k nodes).length = nodes.length := by
  induction nodes generalizing k with
  | nil => rfl
  | cons n ns ih => simp [citationsFrom, ih]

/-- The `i`-th citation built from `nodes` starting at number `k`. -/
theorem citationsFrom_get (k : Nat) (nodes : List CNode) (i : Nat)
    (h2 : i < nodes.length) (h1 : i < (citationsFrom k nodes).length) :
    (citationsFrom k nodes).get ⟨i, h1⟩ =
      { citation_number := k + i, file := (nodes.get ⟨i, h2⟩).file,
        score := (nodes.get ⟨i, h2⟩).score,
        text_preview := previewOf (nodes.get ⟨i, h2⟩).text } := by
  induction nodes generalizing k i with
  | nil => exact absurd h2 (Nat.not_lt_zero i)
  | cons n ns ih =>
      cases i with
      | zero => rfl
      | succ j =>
          have h2' : j < ns.length := Nat.lt_of_succ_lt_succ h2
          have h1' : j < (citationsFrom (k + 1) ns).length := by
            rw [citationsFrom_length]; exact h2'
          have step := ih (k + 1) j h2' h1'
          show (citationsFrom (k + 1) ns).get ⟨j, h1'⟩ = _
          rw [step]
          have harith : k + 1 + j = k + (j + 1) := by omega
          simp [harith]

/-- A citation preview never exceeds 203 characters (200 of text plus
the three-dot ellipsis). -/
theorem previewOf_len_le (t : String) : pyLen (previewOf t) ≤ 203 := by
  unfold previewOf
  split
  · have hdata : (pyTake t 200 ++ "...").data =
        t.data.take 200 ++ ['.', '.', '.'] := by
      simp [pyTake, String.data_append]
    have : pyLen (pyTake t 200 ++ "...") =
        (t.data.take 200).length + 3 := by
      simp [pyLen, hdata]
    rw [this]
    have := List.length_take_le 200 t.data
    omega
  · rename_i h
    simp only [not_lt] at h
    exact le_trans h (by omega)

/-- The flag list `refresh_ref_docs` returns has one entry per input
document. -/
theorem refreshRefDocs_length : ∀ (ds : List RefDoc) (st : Store),
    ((refreshRefDocs st ds).1).length = ds.length := by
  intro ds
  induction ds with
  | nil => intro st; rfl
  | cons d ds ih => intro st; simp [refreshRefDocs, ih]

/-- `refresh_ref_docs` never touches a document id that is not among
the supplied documents — refresh is additive-and-update, not mirror. -/
theorem refreshRefDocs_preserve : ∀ (ds : List RefDoc) (st : Store)
    (k : String), k ∉ ds.map RefDoc.id → ((refreshRefDocs st ds).2) k = st k := by
  intro ds
  induction ds with
  | nil => intro st k _; rfl
  | cons d ds ih =>
      intro st k hk
      have hk' : ¬ (k = d.id ∨ k ∈ ds.map RefDoc.id) := by
        simpa [List.map_cons, List.mem_cons] using hk
      push_neg at hk'
      obtain ⟨h1, h2⟩ := hk'
      show (refreshRefDocs _ ds).2 k = st k
      rw [ih _ k h2]
      split
      · simp [storePut, h1]
      · rfl

/-- A document whose stored hash already matches is left untouched by
`refresh_ref_docs` (when document ids are distinct). -/
theorem refreshRefDocs_untouched : ∀ (ds : List RefDoc) (st : Store),
    (ds.map RefDoc.id).Nodup → ∀ d ∈ ds, st d.id = some d.hash →
    ((refreshRefDocs st ds).2) d.id = some d.hash := by
  intro ds
  induction ds with
  | nil => intro st _ d hd; exact absurd hd (List.not_mem_nil d)
  | cons x ds ih =>
      intro st hnd d hd hst
      rw [List.map_cons] at hnd
      have hx : x.id ∉ ds.map RefDoc.id := (List.nodup_cons.mp hnd).1
      have hnd' : (ds.map RefDoc.id).Nodup := (List.nodup_cons.mp hnd).2
      rcases List.mem_cons.mp hd with rfl | hmem
      · show (refreshRefDocs _ ds).2 d.id = some d.hash
        rw [refreshRefDocs_preserve ds _ d.id hx]
        rw [hst]
        simp [storePut, hst]
      · have hdid : d.id ∈ ds.map RefDoc.id := List.mem_map_of_mem _ hmem
        have hne : d.id ≠ x.id := fun h => hx (h ▸ hdid)
        show (refreshRefDocs _ ds).2 d.id = some d.hash
        apply ih _ hnd' d hmem
        split
        · simp [storePut, hne, hst]
        · exact hst

/-! ## Claim theorems -/

/-- C1, counterexample.  The claim says the cache key equals
`md5(query || "|" || limit || "|" || collection)`.  At query `"a"`,
limit `5`, collection `"x"`, the key `search` actually stores under is
`md5("a:5")` (`"bf15b667f1011ab99bce5ef2c9fdead1"`), which differs from
`md5("a|5|x")` (`"88f90ba06d898547f8bd73272f8cd3ce"`); and the key is
the same string for collection `"y"`, so the fingerprint does not
depend on the collection. -/
theorem c1_counterexample :
    (search (some []) "a" "x" 5 "res").2 =
      some [(("x", md5Hex "a:5"), "res")] ∧
    makeKey (searchCacheKeyArg "a" 5) ≠
      md5Hex ("a" ++ "|" ++ toString 5 ++ "|" ++ "x") ∧
    (search (some []) "a" "y" 5 "res").2 =
      some [(("y", md5Hex "a:5"), "res")] := by
  refine ⟨rfl, by decide, rfl⟩

/-- C1, amended.  On a cache miss, `search(q, p, n)` stores its result
under the key `md5(q || ":" || n)` — an expression in which the
collection `p` does not occur — inside the store namespace `p`; the
collection separates entries as a namespace, not as part of the hashed
fingerprint. -/
theorem c1_theorem (q p r : String) (n : Nat) (b : Backend)
    (hmiss : qcGet (some b) (searchCacheKeyArg q n) p = Json.null) :
    (search (some b) q p n r).2 =
      some (kvInsert b p (md5Hex (q ++ ":" ++ toString n)) r) := by
  unfold search
  rw [hmiss]
  rfl

/-- C1, witness: the amended key derivation at query `"a"`, limit `5`,
collection `"x"`, over an empty backend. -/
theorem c1_theorem_witness :
    (search (some ([] : Backend)) "a" "x" 5 "res").2 =
      some (kvInsert [] "x" (md5Hex ("a" ++ ":" ++ toString 5)) "res") :=
  c1_theorem "a" "x" "res" 5 [] rfl

/-- C3, counterexample.  On an unindexed project `"demo"`, the
component-layer `search` does return the single string
`"Error: Project 'demo' not indexed"`, but neither `find_violations`
returns a one-element list carrying that same message:
`semantic_search.find_violations` yields `["Project not indexed"]` and
the component variant yields `["Project 'demo' not indexed"]`, both
different from the search message. -/
theorem c3_counterexample :
    basicSearch false "demo" (.ok "") = "Error: Project 'demo' not indexed" ∧
    semFindViolations false "" = ["Project not indexed"] ∧
    compFindViolations false "demo" [] = ["Project 'demo' not indexed"] ∧
    ("Project not indexed" : String) ≠ "Error: Project 'demo' not indexed" ∧
    ("Project 'demo' not indexed" : String) ≠
      "Error: Project 'demo' not indexed" := by
  refine ⟨rfl, rfl, rfl, by decide, by decide⟩

/-- C3, amended.  For every unindexed project, the component-layer
`search` returns the single string `"Error: Project '<N>' not indexed"`
(not an exception), while `find_violations` returns a one-element list
whose message lacks the `"Error: "` prefix:
`["Project '<N>' not indexed"]` in the component layer and the constant
`["Project not indexed"]` in `semantic_search.find_violations`. -/
theorem c3_theorem (project resp : String) (inner : Except String String)
    (analysis : List String) :
    basicSearch false project inner =
      "Error: Project '" ++ project ++ "' not indexed" ∧
    semFindViolations false resp = ["Project not indexed"] ∧
    compFindViolations false project analysis =
      ["Project '" ++ project ++ "' not indexed"] :=
  ⟨rfl, rfl, rfl⟩

/-- C4 (confirmed).  When the backend was unreachable at startup (the
connection probe raised, so `get_redis_store` returned `None` and the
cache is disabled), every `get` is a miss (`None`), every `set` is a
no-op returning `False`, and every `delete` returns `False`; each
operation is a total function — the `try/except` bodies are never even
reached, so nothing escapes to the caller. -/
theorem c4_theorem (e query collection : String) (v : Json) :
    qcGet (getRedisStore (Except.error e)) query collection = Json.null ∧
    qcSet (getRedisStore (Except.error e)) query collection v =
      (false, none) ∧
    qcDelete (getRedisStore (Except.error e)) query collection =
      (false, none) :=
  ⟨rfl, rfl, rfl⟩

/-- C5, counterexample.  The claim bounds each citation preview by 200
characters, but for a node whose text has 201 characters the preview is
the first 200 characters plus `"..."` — 203 characters. -/
theorem c5_counterexample :
    (citationsFrom 1
      [⟨"file.py", 0, String.mk (List.replicate 201 'a')⟩]).map
        (fun c => pyLen c.text_preview) = [203] ∧
    ¬ (203 ≤ 200) := by
  refine ⟨by decide, by decide⟩

/-- C5, amended.  Citation numbers start at 1 and increase by 1 with
the position in the source-node list, scores are passed through
unchanged from the retriever, and each preview is the node text when it
has at most 200 characters and its first 200 characters plus `"..."`
otherwise — hence at most 203 characters (not 200). -/
theorem c5_theorem (nodes : List CNode) (i : Nat)
    (h1 : i < (citationsFrom 1 nodes).length) (h2 : i < nodes.length) :
    ((citationsFrom 1 nodes).get ⟨i, h1⟩).citation_number = i + 1 ∧
    ((citationsFrom 1 nodes).get ⟨i, h1⟩).score =
      (nodes.get ⟨i, h2⟩).score ∧
    ((citationsFrom 1 nodes).get ⟨i, h1⟩).text_preview =
      previewOf ((nodes.get ⟨i, h2⟩).text) ∧
    pyLen (((citationsFrom 1 nodes).get ⟨i, h1⟩).text_preview) ≤ 203 := by
  rw [citationsFrom_get 1 nodes i h2 h1]
  refine ⟨?_, rfl, rfl, previewOf_len_le _⟩
  show 1 + i = i + 1
  omega

/-- C5, witness: the amended citation facts on a single node with
three characters of text. -/
theorem c5_theorem_witness :
    ((citationsFrom 1 [⟨"f.py", (1 : ℚ), "abc"⟩]).get
      ⟨0, by simp [citationsFrom]⟩).citation_number = 1 ∧
    pyLen (((citationsFrom 1 [⟨"f.py", (1 : ℚ), "abc"⟩]).get
      ⟨0, by simp [citationsFrom]⟩).text_preview) ≤ 203 := by
  have h := c5_theorem [⟨"f.py", (1 : ℚ), "abc"⟩] 0
    (by simp [citationsFrom]) (by simp)
  exact ⟨h.1, h.2.2.2⟩

/-- C6, counterexample.  The claim says the reported status is not
`"healthy"` when the vector-store check fails; but the handler's single
`return` hard-codes `status: "healthy"`, so even when
`get_collections()` raises, the status is `"healthy"`. -/
theorem c6_counterexample :
    (healthEndpoint (.error "connection refused")).status = "healthy" :=
  rfl

/-- C6, amended.  `GET /health` reports status `"healthy"`
unconditionally; vector-store reachability is reflected only in
`components.qdrant` (`"connected"` with the collection count on
success, `"error: <message>"` with count 0 on failure). -/
theorem c6_theorem (check : Except String Nat) :
    (healthEndpoint check).status = "healthy" ∧
    (∀ e, check = .error e →
      (healthEndpoint check).qdrant = "error: " ++ e ∧
      (healthEndpoint check).collections = 0) ∧
    (∀ n, check = .ok n →
      (healthEndpoint check).qdrant = "connected" ∧
      (healthEndpoint check).collections = n) := by
  cases check with
  | ok n =>
      refine ⟨rfl, ?_, ?_⟩
      · intro e h
        cases h
      · intro m h
        cases h
        exact ⟨rfl, rfl⟩
  | error e =>
      refine ⟨rfl, ?_, ?_⟩
      · intro e' h
        cases h
        exact ⟨rfl, rfl⟩
      · intro m h
        cases h

/-- C6, witness: the amended health facts at a successful probe with
three collections and at a failed probe. -/
theorem c6_theorem_witness :
    (healthEndpoint (.ok 3)).status = "healthy" ∧
    (healthEndpoint (.ok 3)).qdrant = "connected" ∧
    (healthEndpoint (.error "down")).qdrant = "error: " ++ "down" :=
  ⟨(c6_theorem (.ok 3)).1, ((c6_theorem (.ok 3)).2.2 3 rfl).1,
   ((c6_theorem (.error "down")).2.1 "down" rfl).1⟩

/-- C2, counterexample.  The claim says `exists ⇔ score ≥ 0.7`; the
code's condition is the strict `nodes[0].score > 0.7`, so at score
exactly `0.7` the claim predicts `exists = true` while the code reports
`false`. -/
theorem c2_counterexample :
    (docCheckExists "Foo" "llamaindex" true
      (.ok [⟨(7 : ℚ) / 10, "some documentation text"⟩])).exists_ = false ∧
    (7 : ℚ) / 10 ≤ (7 : ℚ) / 10 := by
  constructor
  · simp [docCheckExists]
  · exact le_refl _

/-- C2, amended.  `check_exists` retrieves top-1; `exists` is true iff
a node came back with score strictly greater than 0.7; when it does,
the returned confidence is the node's raw score passed through (hence
in `[0,1]` exactly when the retriever's score is) and the context is
the node's text truncated to its first 500 characters; with no nodes,
`exists` is false. -/
theorem c2_theorem (component framework : String) (n : RNode)
    (rest : List RNode) :
    ((docCheckExists component framework true (.ok (n :: rest))).exists_ =
        true ↔ (7 : ℚ) / 10 < n.score) ∧
    ((7 : ℚ) / 10 < n.score →
      (docCheckExists component framework true
          (.ok (n :: rest))).confidence = some n.score ∧
      (docCheckExists component framework true (.ok (n :: rest))).context =
        some (pyTake n.text 500)) ∧
    (∀ q : ℚ, 0 ≤ n.score → n.score ≤ 1 →
      (docCheckExists component framework true
          (.ok (n :: rest))).confidence = some q → 0 ≤ q ∧ q ≤ 1) ∧
    (docCheckExists component framework true (.ok [])).exists_ = false := by
  refine ⟨?_, ?_, ?_, ?_⟩
  · by_cases h : (7 : ℚ) / 10 < n.score <;> simp [docCheckExists, h]
  · intro h
    exact ⟨by simp [docCheckExists, h], by simp [docCheckExists, h]⟩
  · intro q h0 h1 hc
    by_cases h : (7 : ℚ) / 10 < n.score
    · simp [docCheckExists, h] at hc
      exact ⟨hc ▸ h0, hc ▸ h1⟩
    · simp [docCheckExists, h] at hc
  · simp [docCheckExists]

/-- C2, witness: the amended existence facts at score `0.8` and text
`"abcd"`. -/
theorem c2_theorem_witness :
    (docCheckExists "QueryEngine" "llamaindex" true
      (.ok [⟨(4 : ℚ) / 5, "abcd"⟩])).exists_ = true ∧
    (docCheckExists "QueryEngine" "llamaindex" true
      (.ok [⟨(4 : ℚ) / 5, "abcd"⟩])).confidence = some ((4 : ℚ) / 5) ∧
    (docCheckExists "QueryEngine" "llamaindex" true
      (.ok [⟨(4 : ℚ) / 5, "abcd"⟩])).context = some "abcd" := by
  have h := c2_theorem "QueryEngine" "llamaindex" ⟨(4 : ℚ) / 5, "abcd"⟩ []
  have hlt : (7 : ℚ) / 10 < (4 : ℚ) / 5 := by norm_num
  refine ⟨h.1.mpr hlt, (h.2.1 hlt).1, ?_⟩
  rw [(h.2.1 hlt).2]
  rfl

/-- C7, counterexample.  With `config.yaml` present and holding the
plain value `chunk_size: 512`, and the environment carrying the same
key (in both spellings) with value `1024`, the loaded configuration
keeps the YAML value `512`: the environment does not override a
non-placeholder YAML value. -/
theorem c7_counterexample :
    loadConfig (some [("chunk_size", "512")]) env1 =
      [("chunk_size", "512")] ∧
    env1 "CHUNK_SIZE" = some "1024" ∧
    env1 "chunk_size" = some "1024" ∧
    ("512" : String) ≠ "1024" := by
  refine ⟨rfl, rfl, rfl, by decide⟩

/-- C7, amended.  When `config.yaml` exists, each of its entries is
kept as written unless the value is the literal placeholder
`"${VAR}"`, in which case the environment variable `VAR` is substituted
(falling back to the placeholder string itself when unset); plain YAML
values win over the environment.  (When the file is absent, the whole
configuration is read from the environment with defaults.) -/
theorem c7_theorem (env : String → Option String)
    (cfg : List (String × String)) (k v : String) (h : (k, v) ∈ cfg) :
    (k, substEnv env v) ∈ loadConfig (some cfg) env ∧
    (isEnvPlaceholder v = false → substEnv env v = v) ∧
    (∀ w, isEnvPlaceholder v = true → env (envVarOf v) = some w →
      substEnv env v = w) := by
  refine ⟨?_, ?_, ?_⟩
  · simpa [loadConfig] using
      List.mem_map_of_mem (fun kv => (kv.1, substEnv env kv.2)) h
  · intro hp
    simp [substEnv, hp]
  · intro w hp he
    simp [substEnv, hp, getenvD, he]

/-- C7, witness: the amended override behavior on a two-entry YAML
file — the plain value survives, the placeholder is substituted from
the environment. -/
theorem c7_theorem_witness :
    ("chunk_size", substEnv env1 "512") ∈
      loadConfig (some [("chunk_size", "512"), ("cs", "$\x7bCHUNK_SIZE\x7d")])
        env1 ∧
    substEnv env1 "512" = "512" ∧
    substEnv env1 "$\x7bCHUNK_SIZE\x7d" = "1024" := by
  have h1 := c7_theorem env1
    [("chunk_size", "512"), ("cs", "$\x7bCHUNK_SIZE\x7d")]
    "chunk_size" "512" (by simp)
  have h2 := c7_theorem env1
    [("chunk_size", "512"), ("cs", "$\x7bCHUNK_SIZE\x7d")]
    "cs" "$\x7bCHUNK_SIZE\x7d" (by simp)
  refine ⟨h1.1, h1.2.1 (by decide), h2.2.2 "1024" (by decide) (by decide)⟩

/-- C8 (confirmed).  `should_use_complex_model` lower-cases the task
description; if any fast keyword occurs as a substring the fast model
is chosen — even when a complex keyword also occurs, since the simple
list is checked first; otherwise any complex keyword selects the
complex model; otherwise the default is fast. -/
theorem c8_theorem (task : String) :
    (simpleKeywords.any (fun kw => hasSubstr (pyLower task) kw) = true →
      shouldUseComplexModel task = "fast") ∧
    (simpleKeywords.any (fun kw => hasSubstr (pyLower task) kw) = false →
      complexKeywords.any (fun kw => hasSubstr (pyLower task) kw) = true →
      shouldUseComplexModel task = "complex") ∧
    (simpleKeywords.any (fun kw => hasSubstr (pyLower task) kw) = false →
      complexKeywords.any (fun kw => hasSubstr (pyLower task) kw) = false →
      shouldUseComplexModel task = "fast") := by
  unfold shouldUseComplexModel
  refine ⟨fun h => by simp [h], fun h1 h2 => by simp [h1, h2],
    fun h1 h2 => by simp [h1, h2]⟩

/-- C8, witness: a conflicting task (contains fast keyword `"search"`
and complex keyword `"analyze"`) resolves to fast; a purely complex
task to complex; a keyword-free task to fast. -/
theorem c8_theorem_witness :
    shouldUseComplexModel "Analyze the search index" = "fast" ∧
    shouldUseComplexModel "deep reasoning about architecture" = "complex" ∧
    shouldUseComplexModel "hello" = "fast" := by
  have h1 := c8_theorem "Analyze the search index"
  have h2 := c8_theorem "deep reasoning about architecture"
  have h3 := c8_theorem "hello"
  exact ⟨h1.1 (by decide), h2.2.1 (by decide) (by decide),
    h3.2.2 (by decide) (by decide)⟩

/-- C9 (confirmed; `refresh_ref_docs` is modelled from the spec, being
LlamaIndex library code).  For an indexed collection,
`refresh_project` returns counts with
`refreshed + unchanged = total = len(docs)`; ids absent from the input
documents are never deleted from the stored node set; and (for
duplicate-free inputs) a document whose stored hash already matches is
left untouched. -/
theorem c9_theorem (name : String) (st : Store) (ds : List RefDoc)
    (r : RefreshResult) (st2 : Store)
    (h : refreshProject name true st (.ok ds) = .ok (r, st2)) :
    r.refreshed + r.unchanged = r.total ∧ r.total = ds.length ∧
    (∀ k, k ∉ ds.map RefDoc.id → st2 k = st k) ∧
    ((ds.map RefDoc.id).Nodup →
      ∀ d ∈ ds, st d.id = some d.hash → st2 d.id = some d.hash) := by
  have h' :
      ({ refreshed := countTrue (refreshRefDocs st ds).1, total := ds.length,
         unchanged := ds.length - countTrue (refreshRefDocs st ds).1,
         collection := name } : RefreshResult) = r ∧
      (refreshRefDocs st ds).2 = st2 := by
    have h2 := h
    simp only [refreshProject] at h2
    simp at h2
    exact h2
  obtain ⟨hr, hst⟩ := h'
  subst hr
  subst hst
  have hle : countTrue (refreshRefDocs st ds).1 ≤ ds.length := by
    have h1 : countTrue (refreshRefDocs st ds).1 ≤
        ((refreshRefDocs st ds).1).length := List.count_le_length _ _
    have h2 := refreshRefDocs_length ds st
    omega
  refine ⟨?_, rfl, ?_, ?_⟩
  · show countTrue (refreshRefDocs st ds).1 +
      (ds.length - countTrue (refreshRefDocs st ds).1) = ds.length
    omega
  · intro k hk
    exact refreshRefDocs_preserve ds st k hk
  · intro hnd d hd hsd
    exact refreshRefDocs_untouched ds st hnd d hd hsd

/-- C9, witness: refreshing `demoStore` (which holds `a.py` at hash
`h1`) with `a.py` unchanged and `b.md` new gives
`refreshed + unchanged = total = 2`, leaves `a.py` untouched, and does
not delete the unrelated id `zzz`. -/
theorem c9_theorem_witness :
    (1 : Nat) + 1 = 2 ∧
    (storePut demoStore ⟨"b.md", "h2"⟩) "a.py" = some "h1" ∧
    (storePut demoStore ⟨"b.md", "h2"⟩) "zzz" = demoStore "zzz" := by
  have h := c9_theorem "demo" demoStore demoDocs
    { refreshed := 1, total := 2, unchanged := 1, collection := "demo" }
    (storePut demoStore ⟨"b.md", "h2"⟩) rfl
  refine ⟨h.1, ?_, ?_⟩
  · exact h.2.2.2 (by decide) ⟨"a.py", "h1"⟩ (by simp [demoDocs]) rfl
  · exact h.2.2.1 "zzz" (by decide)

/-- C10 (code bug).  Storing the plain string `"hello world"` under
query `"q"`, collection `"p"` succeeds (`set` returns `True` and the
raw string is in the backend under the derived key), yet the subsequent
`get "q" "p"` returns `None`: `get` feeds the stored string to
`json.loads`, which fails on a non-JSON plain string, and the handler
swallows the error into a miss — so cached plain-string search answers
are never retrievable. -/
theorem c10_theorem :
    (qcSet (some ([] : Backend)) "q" "p" (Json.str "hello world")).1 =
      true ∧
    kvLookup ((qcSet (some ([] : Backend)) "q" "p"
      (Json.str "hello world")).2.getD []) "p" (makeKey "q") =
      some "hello world" ∧
    qcGet (qcSet (some ([] : Backend)) "q" "p"
      (Json.str "hello world")).2 "q" "p" = Json.null := by
  refine ⟨rfl, ?_, ?_⟩
  · rfl
  · rfl

end SemanticSearchService
